import Mathlib

/-!
Shallow embedding of the biometric enrollment/verification core of the
bioattend backend, together with proofs of the specified properties.

Embeddings are modelled as `List ℝ` (the code works with numpy float
vectors); times of day are modelled as `ℤ` seconds since midnight (the
code subtracts two `datetime.combine(date.min, t)` values and takes
`total_seconds()`); database rows are modelled as explicit records and
the fallible steps of each handler (detection, extraction, provider
calls) as explicit inputs, so every handler is a pure function of its
inputs.
-/

namespace BioAttend

/-! ### Vector arithmetic used by facial_recognition/utils.py and
attendance/face_verification.py -/

/-- Dot product of two embedding vectors (`np.dot`). -/
def dot (v w : List ℝ) : ℝ := (List.zipWith (fun a b => a * b) v w).sum

/-- Sum of squares of the entries of a vector. -/
def sumSq (v : List ℝ) : ℝ := (v.map fun x => x * x).sum

/-- Euclidean norm (`np.linalg.norm`). -/
noncomputable def l2norm (v : List ℝ) : ℝ := Real.sqrt (sumSq v)

/-- `FaceVerificationService.calculate_cosine_similarity`
(attendance/face_verification.py, lines 45-60): if either norm is zero
the function returns 0.0; otherwise both vectors are divided by their
norms and the dot product of the normalized vectors is returned. -/
noncomputable def calculate_cosine_similarity (e1 e2 : List ℝ) : ℝ :=
  if l2norm e1 = 0 ∨ l2norm e2 = 0 then 0
  else dot (e1.map fun x => x / l2norm e1) (e2.map fun x => x / l2norm e2)

/-- Componentwise sum of a list of equal-length vectors (the sum hidden
inside `np.mean(embeddings_array, axis=0)`). -/
def vecSum : List (List ℝ) → List ℝ
  | [] => []
  | [v] => v
  | v :: w :: rest => List.zipWith (fun a b => a + b) v (vecSum (w :: rest))

/-- Componentwise mean of a list of vectors (`np.mean(..., axis=0)`). -/
noncomputable def meanVec (vs : List (List ℝ)) : List ℝ :=
  (vecSum vs).map fun x => x / (vs.length : ℝ)

/-- `FaceProcessor.calculate_average_embedding`
(facial_recognition/utils.py, lines 197-211): an empty list raises
`ValueError("No embeddings provided")`; otherwise the componentwise mean
is computed and, when its norm is positive, divided by that norm. -/
noncomputable def calculate_average_embedding : List (List ℝ) → Except String (List ℝ)
  | [] => .error "No embeddings provided"
  | v :: vs =>
    if 0 < l2norm (meanVec (v :: vs)) then
      .ok ((meanVec (v :: vs)).map fun x => x / l2norm (meanVec (v :: vs)))
    else
      .ok (meanVec (v :: vs))

/-! ### Basic lemmas about the vector arithmetic -/

theorem sumSq_nonneg (v : List ℝ) : 0 ≤ sumSq v := by
  refine List.sum_nonneg ?_
  intro x hx
  rcases List.mem_map.mp hx with ⟨y, _, rfl⟩
  exact mul_self_nonneg y

theorem sumSq_nil : sumSq ([] : List ℝ) = 0 := rfl

theorem sumSq_cons (x : ℝ) (v : List ℝ) : sumSq (x :: v) = x * x + sumSq v := by
  simp [sumSq]

theorem sumSq_eq_zero_iff (v : List ℝ) :
    sumSq v = 0 ↔ v = List.replicate v.length 0 := by
  induction v with
  | nil => simp [sumSq_nil]
  | cons x v ih =>
    rw [sumSq_cons, List.length_cons, List.replicate_succ]
    constructor
    · intro h
      have hx : x * x = 0 ∧ sumSq v = 0 :=
        (add_eq_zero_iff_of_nonneg (mul_self_nonneg x) (sumSq_nonneg v)).mp h
      have hx0 : x = 0 := mul_self_eq_zero.mp hx.1
      have hv : v = List.replicate v.length 0 := ih.mp hx.2
      rw [hx0]
      exact congrArg (List.cons 0) hv
    · intro h
      obtain ⟨hx0, hv⟩ := List.cons.inj h
      rw [hx0, ih.mpr hv, mul_zero, add_zero]

theorem l2norm_eq_zero_iff (v : List ℝ) : l2norm v = 0 ↔ sumSq v = 0 := by
  unfold l2norm
  rw [Real.sqrt_eq_zero']
  constructor
  · intro h
    exact le_antisymm h (sumSq_nonneg v)
  · intro h
    exact le_of_eq h

theorem l2norm_pos_iff (v : List ℝ) : 0 < l2norm v ↔ 0 < sumSq v := by
  unfold l2norm
  exact Real.sqrt_pos

theorem sumSq_map_div (v : List ℝ) (c : ℝ) :
    sumSq (v.map fun x => x / c) = sumSq v / c ^ 2 := by
  induction v with
  | nil => simp [sumSq_nil]
  | cons x v ih =>
    simp only [List.map_cons, sumSq_cons, ih, add_div]
    congr 1
    rw [div_mul_div_comm, sq]

theorem l2norm_map_div_self (v : List ℝ) (h : 0 < l2norm v) :
    l2norm (v.map fun x => x / l2norm v) = 1 := by
  have hs : sumSq (v.map fun x => x / l2norm v) = 1 := by
    rw [sumSq_map_div]
    have hsq : l2norm v ^ 2 = sumSq v := Real.sq_sqrt (sumSq_nonneg v)
    rw [hsq]
    have hpos : 0 < sumSq v := (l2norm_pos_iff v).mp h
    exact div_self (ne_of_gt hpos)
  rw [l2norm, hs, Real.sqrt_one]

/-! ### Quality metrics (`FaceProcessor.calculate_quality_metrics`,
facial_recognition/utils.py, lines 236-266) -/

/-- Mean of a list of reals (`np.mean`). -/
noncomputable def mean (l : List ℝ) : ℝ := l.sum / (l.length : ℝ)

/-- Standard deviation of dimension `j` across a list of embeddings
(`np.std(embeddings_array, axis=0)` at column `j`; numpy uses the
population convention, i.e. the square root of the mean squared
deviation). -/
noncomputable def stdPerDim (vs : List (List ℝ)) (j : ℕ) : ℝ :=
  Real.sqrt (mean ((vs.map fun v => v.getD j 0).map
    fun x => (x - mean (vs.map fun v => v.getD j 0)) ^ 2))

/-- Mean over the `d` dimensions of the per-dimension standard deviations
(`np.mean(np.std(embeddings_array, axis=0))`). -/
noncomputable def meanStd (vs : List (List ℝ)) (d : ℕ) : ℝ :=
  mean ((List.range d).map fun j => stdPerDim vs j)

/-- The per-call accumulator built by
`FaceProcessor.process_media_for_enrollment`: the fields of the
`results` dict that `calculate_quality_metrics` reads. -/
structure EnrollResults where
  frames_processed : ℕ
  faces_detected : ℕ
  embeddings : List (List ℝ)
  confidences : List ℝ

/-- The `metrics` dict returned by `calculate_quality_metrics`. -/
structure QualityMetrics where
  face_detection_rate : ℝ
  average_confidence : ℝ
  embedding_consistency : ℝ
  overall_quality : ℝ

/-- `FaceProcessor.calculate_quality_metrics`: detection rate is
faces/frames (0 if no frames), average confidence is the mean of the
per-frame confidences (0 if none), consistency is
`1 - min(std_dev, 1.0)` of the mean per-dimension standard deviation
when more than one embedding exists and 1.0 otherwise, and the overall
quality is `rate*0.3 + confidence*0.4 + consistency*0.3`. -/
noncomputable def calculate_quality_metrics (r : EnrollResults) : QualityMetrics :=
  let rate : ℝ :=
    if 0 < r.frames_processed then (r.faces_detected : ℝ) / (r.frames_processed : ℝ) else 0
  let conf : ℝ := if r.confidences ≠ [] then mean r.confidences else 0
  let cons : ℝ :=
    if 1 < r.embeddings.length then
      1 - min (meanStd r.embeddings (r.embeddings.headD []).length) 1
    else 1
  { face_detection_rate := rate
    average_confidence := conf
    embedding_consistency := cons
    overall_quality := rate * 0.3 + conf * 0.4 + cons * 0.3 }

/-! ### The verification service
(`FaceVerificationService.verify_face`,
attendance/face_verification.py, lines 62-147).

The service runs a sequence of fallible steps inside one `try` block;
any exception raised by a step is caught at the bottom and turned into
the catch-all result whose message starts with `Verification error:`.
Each step outcome is an explicit input here. -/

/-- Outcome of one Python call: either a value or a raised exception
(carrying the exception text). -/
inductive PyStep (α : Type) where
  | ok (a : α)
  | raises (msg : String)

/-- A face returned by `FaceProcessor.detect_faces`: bounding box and
detector confidence. -/
structure FaceDet where
  box : ℤ × ℤ × ℤ × ℤ
  confidence : ℝ

/-- The distinct `message` strings that `verify_face` can put in its
result dict, one constructor per string so that distinctness of the
outcomes is distinctness of constructors. -/
inductive VMessage where
  | noActiveEnrollment
  | noFaceDetected
  | multipleFacesDetected
  | failedToProcessFace
  | failedToExtractEmbedding
  | belowThreshold
  | verifiedSuccessfully
  | verificationError (msg : String)
deriving DecidableEq

/-- The result dict of `verify_face`. -/
structure VerifyResult where
  verified : Bool
  confidence : ℝ
  message : VMessage
  embedding : Option (List ℝ)

/-- The environment of one `verify_face` call: the enrollment row lookup
and the outcome of each fallible processing step on the snapshot. -/
structure VerifyEnv where
  enrollment : Option (List ℝ)
  decode : PyStep Unit
  faces : PyStep (List FaceDet)
  crop : PyStep (Option Unit)
  extract : PyStep (Option (List ℝ))

/-- Default `similarity_threshold` of `FaceVerificationService.__init__`. -/
noncomputable def default_similarity_threshold : ℝ := 0.6

/-- `FaceVerificationService.verify_face`: no active enrollment, zero
faces, several faces, crop failure and extraction failure each produce
their own message with `verified = False` and `confidence = 0.0`; with
exactly one face and an extracted embedding, the cosine similarity to
the stored embedding decides `verified` (at `similarity >= threshold`)
and is returned as `confidence` on both sides of the threshold; a raised
exception anywhere in the pipeline is caught and reported as a
`Verification error:` message with `verified = False`. -/
noncomputable def verify_face (threshold : ℝ) (env : VerifyEnv) : VerifyResult :=
  match env.enrollment with
  | none => ⟨false, 0, .noActiveEnrollment, none⟩
  | some stored =>
    match env.decode with
    | .raises m => ⟨false, 0, .verificationError m, none⟩
    | .ok _ =>
      match env.faces with
      | .raises m => ⟨false, 0, .verificationError m, none⟩
      | .ok faces =>
        if faces.isEmpty then ⟨false, 0, .noFaceDetected, none⟩
        else if 1 < faces.length then ⟨false, 0, .multipleFacesDetected, none⟩
        else
          match env.crop with
          | .raises m => ⟨false, 0, .verificationError m, none⟩
          | .ok none => ⟨false, 0, .failedToProcessFace, none⟩
          | .ok (some _) =>
            match env.extract with
            | .raises m => ⟨false, 0, .verificationError m, none⟩
            | .ok none => ⟨false, 0, .failedToExtractEmbedding, none⟩
            | .ok (some snap) =>
              if threshold ≤ calculate_cosine_similarity snap stored then
                ⟨true, calculate_cosine_similarity snap stored, .verifiedSuccessfully, some snap⟩
              else
                ⟨false, calculate_cosine_similarity snap stored, .belowThreshold, none⟩

/-! ### Attendance state machine (attendance/views.py and
attendance/models.py).

Times of day are seconds since midnight, as `ℤ`: the code subtracts
`datetime.combine(date.min, t)` values and compares `total_seconds()`
with 600. A row of `attendance_logs` for one `(student, schedule, date)`
key is an `AttendanceLog`. -/

/-- `AttendanceLog.status` choices. -/
inductive AStatus where
  | PRESENT
  | ABSENT
  | LATE
  | EXCUSED
deriving DecidableEq

/-- One `attendance_logs` row (the fields the clock-in/out and manual
request handlers read or write). -/
structure AttendanceLog where
  status : AStatus
  check_in_time : Option ℤ
  check_out_time : Option ℤ
  face_recognition_confidence : Option ℝ
  is_manual_override : Bool
  override_reason : String
  override_by : Option ℕ

/-- The lateness rule shared by `ClockInView.post` (lines 125-132) and
`AttendanceLog.is_late`: when the schedule has a start time and the
check-in is strictly more than 600 seconds after it, the status becomes
`LATE`; otherwise the log is left as is. -/
def applyLateCheck (log : AttendanceLog) (start_time : Option ℤ) (now : ℤ) : AttendanceLog :=
  match start_time with
  | none => log
  | some s => if 600 < now - s then { log with status := .LATE } else log

/-- Outcome of the post-verification part of `ClockInView.post`. -/
inductive ClockInOutcome where
  | alreadyClockedIn (log : AttendanceLog)
  | ok (log : AttendanceLog) (created : Bool)

/-- Post-verification body of `ClockInView.post` (lines 95-134): a
missing row is created with status PRESENT, the check-in time and the
verification confidence (`get_or_create` defaults); an existing row with
a check-in time is rejected as already clocked in before anything is
written; an existing row without one is upgraded in place; finally the
lateness rule runs on the saved row. -/
def clock_in (existing : Option AttendanceLog) (start_time : Option ℤ) (now : ℤ)
    (conf : ℝ) : ClockInOutcome :=
  match existing with
  | none =>
    .ok (applyLateCheck
      { status := .PRESENT, check_in_time := some now, check_out_time := none,
        face_recognition_confidence := some conf, is_manual_override := false,
        override_reason := "", override_by := none } start_time now) true
  | some log =>
    match log.check_in_time with
    | some _ => .alreadyClockedIn log
    | none =>
      .ok (applyLateCheck
        { log with check_in_time := some now,
                   face_recognition_confidence := some conf,
                   status := .PRESENT } start_time now) false

/-- Outcome of `ClockOutView.post` after verification. -/
inductive ClockOutOutcome where
  | noAttendanceRecord
  | noCheckIn (log : AttendanceLog)
  | alreadyClockedOut (log : AttendanceLog)
  | ok (log : AttendanceLog)

/-- Post-verification body of `ClockOutView.post` (lines 262-313): the
`(student, schedule, date)` row is looked up; `DoesNotExist` is a 404,
a row without check-in time and a row with an existing check-out time
are each their own 400 rejection before anything is written; otherwise
only the check-out time is set. -/
def clock_out (existing : Option AttendanceLog) (now : ℤ) : ClockOutOutcome :=
  match existing with
  | none => .noAttendanceRecord
  | some log =>
    match log.check_in_time with
    | none => .noCheckIn log
    | some _ =>
      match log.check_out_time with
      | some _ => .alreadyClockedOut log
      | none => .ok { log with check_out_time := some now }

/-- Response classes of `ClockInView.post` as seen by the HTTP caller:
a 401 with status ABSENT when verification did not succeed, a 400 when
already clocked in, and a 200/201 with the saved row otherwise. -/
inductive ClockInResponse where
  | unauthorized (message : VMessage) (confidence : ℝ)
  | badRequest (log : AttendanceLog)
  | success (log : AttendanceLog) (created : Bool)

/-- `ClockInView.post` composed with the verification result (lines
80-134): every result with `verified == False` - negative match,
missing enrollment, bad snapshot or caught provider error alike - takes
the same 401 rejection branch. -/
def clock_in_view (vr : VerifyResult) (existing : Option AttendanceLog)
    (start_time : Option ℤ) (now : ℤ) : ClockInResponse :=
  if vr.verified = false then .unauthorized vr.message vr.confidence
  else
    match clock_in existing start_time now vr.confidence with
    | .alreadyClockedIn log => .badRequest log
    | .ok log created => .success log created

/-! ### Manual clock-in requests
(`ManualRequestActionView.post`, attendance/manual_request_views.py,
lines 93-209). -/

/-- `ManualClockInRequest.status` values. -/
inductive MRStatus where
  | pending
  | approved
  | rejected
deriving DecidableEq

/-- One `ManualClockInRequest` row (the fields the action view reads or
writes; `reviewed_at` is omitted as no claim mentions time of review). -/
structure ManualRequest where
  status : MRStatus
  reason : String
  reviewed_by : Option ℕ
  admin_response : String

/-- The two actions of `ManualRequestActionView.post`. -/
inductive MRAction where
  | approve
  | reject
deriving DecidableEq

/-- Outcome of `ManualRequestActionView.post` for one request: either
the 400 rejection of an already-decided request (request and attendance
row both carried unchanged), or the decided request together with the
resulting attendance row for the request key. -/
inductive ManualActionOutcome where
  | alreadyProcessed (req : ManualRequest) (record : Option AttendanceLog)
  | decided (req : ManualRequest) (record : Option AttendanceLog)

/-- Body of `ManualRequestActionView.post` (lines 136-173): a request
whose status is not `pending` is rejected with `already ...` and nothing
is written; otherwise the request becomes `approved` or `rejected` with
the reviewer and response recorded; on approval the attendance row is
created with `get_or_create` defaults (PRESENT, check-in at the schedule
start time, override flag/reason/actor), an existing row without
check-in time is updated with the same fields, and an existing row with
a check-in time is left untouched; on rejection the attendance row is
never touched. -/
def manual_request_action (req : ManualRequest) (action : MRAction) (reviewer : ℕ)
    (admin_reason : String) (existing : Option AttendanceLog)
    (schedule_start : ℤ) : ManualActionOutcome :=
  if req.status ≠ .pending then .alreadyProcessed req existing
  else
    let req2 : ManualRequest :=
      { req with status := if action = .approve then .approved else .rejected,
                 reviewed_by := some reviewer, admin_response := admin_reason }
    match action with
    | .reject => .decided req2 existing
    | .approve =>
      match existing with
      | none =>
        .decided req2 (some
          { status := .PRESENT, check_in_time := some schedule_start,
            check_out_time := none, face_recognition_confidence := none,
            is_manual_override := true,
            override_reason := "Manual request approved: " ++ req.reason,
            override_by := some reviewer })
      | some log =>
        match log.check_in_time with
        | none =>
          .decided req2 (some
            { log with status := .PRESENT, check_in_time := some schedule_start,
                       is_manual_override := true,
                       override_reason := "Manual request approved: " ++ req.reason,
                       override_by := some reviewer })
        | some _ => .decided req2 (some log)

/-! ### Enrollment duplicate scan
(`StudentEnrollmentView.post`, facial_recognition/views.py, lines
62-176).

The scan loop calls `processor.calculate_cosine_similarity(...)` on a
`FaceProcessor` instance from facial_recognition/utils.py. That class
defines `extract_frames_from_video`, `extract_images_from_zip`,
`detect_faces`, `align_and_crop_face`, `extract_face_embedding`,
`process_media_for_enrollment`, `calculate_average_embedding`,
`create_thumbnail` and `calculate_quality_metrics` - and no
`calculate_cosine_similarity` (only `FaceVerificationService` in
attendance/face_verification.py defines one). The Python attribute
lookup is modelled as an `Option`-valued attribute, so the faithful
instantiation carries `none` and the loop body hits the
`AttributeError` path. -/

/-- The attribute slot `calculate_cosine_similarity` of the
`FaceProcessor` class: `none`, because facial_recognition/utils.py
defines no method of that name, so looking it up raises
`AttributeError`. -/
def faceProcessorCosineAttr : Option (List ℝ → List ℝ → ℝ) := none

/-- The duplicate threshold hard-coded in `StudentEnrollmentView.post`
(line 103). -/
noncomputable def duplicate_threshold : ℝ := 0.95

/-- The scan loop of `StudentEnrollmentView.post` (lines 106-135) over
the other active enrollments, each `(student_id, stored_embedding)`.
Every iteration runs inside `try: ... except Exception: continue`; if
the cosine-similarity attribute is missing the raised `AttributeError`
is swallowed and the loop continues, otherwise a similarity at or above
the threshold returns that conflict. -/
noncomputable def duplicate_scan (cosAttr : Option (List ℝ → List ℝ → ℝ))
    (threshold : ℝ) (avg : List ℝ) : List (ℕ × List ℝ) → Option (ℕ × ℝ)
  | [] => none
  | (sid, emb) :: rest =>
    match cosAttr with
    | none => duplicate_scan cosAttr threshold avg rest
    | some f =>
      if threshold ≤ f avg emb then some (sid, f avg emb)
      else duplicate_scan cosAttr threshold avg rest

/-- Outcome of `StudentEnrollmentView.post` after face collection:
a 400 when fewer than 5 usable faces were found, a 409 conflict
(`DUPLICATE_FACE_ENROLLMENT`) when the duplicate scan reports a match,
and otherwise the atomic create-or-replace of the active enrollment row
with the averaged embedding. -/
inductive EnrollOutcome where
  | insufficientFaces (n : ℕ)
  | duplicateConflict (sid : ℕ) (similarity : ℝ)
  | persisted (embedding : List ℝ)

/-- `StudentEnrollmentView.post` (lines 82-176) after
`process_media_for_enrollment`: reject below 5 faces, average the
embeddings, run the duplicate scan over all other active enrollments,
return the 409 conflict on a reported match and otherwise persist.
An exception escaping `calculate_average_embedding` propagates to the
outer handler (`.error`, the 500 path). -/
noncomputable def student_enrollment_post (r : EnrollResults)
    (others : List (ℕ × List ℝ)) : Except String EnrollOutcome :=
  if r.faces_detected < 5 then .ok (.insufficientFaces r.faces_detected)
  else
    match calculate_average_embedding r.embeddings with
    | .error e => .error e
    | .ok avg =>
      match duplicate_scan faceProcessorCosineAttr duplicate_threshold avg others with
      | some (sid, sim) => .ok (.duplicateConflict sid sim)
      | none => .ok (.persisted avg)

/-! ### AWS Rekognition verification
(`AWSRekognitionService.verify_face`,
facial_recognition/aws_rekognition.py, lines 333-370). -/

/-- The result dict of `AWSRekognitionService.verify_face`. -/
structure AwsVerifyResult where
  verified : Bool
  confidence : ℝ
  threshold_met : Bool
  error : Option String

/-- Python `max(student_matches, key=lambda x: x.similarity)`: first
maximal element. -/
noncomputable def bestMatch (m : String × ℝ) (rest : List (String × ℝ)) : String × ℝ :=
  rest.foldl (fun a b => if a.2 < b.2 then b else a) m

/-- `AWSRekognitionService.verify_face`: the provider search
(`search_faces_by_image`) either returns candidate matches or raises;
the matches are filtered to the claimed student; a nonempty filtered
list makes the result `verified = True` with the best similarity as
confidence, an empty one makes it `verified = False` with confidence
0.0, and ANY raised exception (network, timeout, auth, ...) is caught
and also returned as `verified = False` with confidence 0.0, merely
adding an `error` string to the dict. -/
noncomputable def aws_verify_face (search : PyStep (List (String × ℝ)))
    (isStudentMatch : String → Bool) (threshold : ℝ) : AwsVerifyResult :=
  match search with
  | .raises m => ⟨false, 0, false, some m⟩
  | .ok found =>
    match found.filter (fun p => isStudentMatch p.1) with
    | [] => ⟨false, 0, false, none⟩
    | m :: rest =>
      ⟨true, (bestMatch m rest).2,
        if threshold ≤ (bestMatch m rest).2 then true else false, none⟩

/-! ### Lemmas about the lateness rule -/

theorem applyLateCheck_check_in (log : AttendanceLog) (st : Option ℤ) (now : ℤ) :
    (applyLateCheck log st now).check_in_time = log.check_in_time := by
  unfold applyLateCheck
  cases st with
  | none => rfl
  | some s => by_cases hc : 600 < now - s <;> simp [hc]

theorem applyLateCheck_check_out (log : AttendanceLog) (st : Option ℤ) (now : ℤ) :
    (applyLateCheck log st now).check_out_time = log.check_out_time := by
  unfold applyLateCheck
  cases st with
  | none => rfl
  | some s => by_cases hc : 600 < now - s <;> simp [hc]

theorem applyLateCheck_conf (log : AttendanceLog) (st : Option ℤ) (now : ℤ) :
    (applyLateCheck log st now).face_recognition_confidence =
      log.face_recognition_confidence := by
  unfold applyLateCheck
  cases st with
  | none => rfl
  | some s => by_cases hc : 600 < now - s <;> simp [hc]

theorem applyLateCheck_status_of_present (log : AttendanceLog)
    (hp : log.status = .PRESENT) (s now : ℤ) :
    (applyLateCheck log (some s) now).status =
      if 600 < now - s then AStatus.LATE else AStatus.PRESENT := by
  unfold applyLateCheck
  by_cases hc : 600 < now - s <;> simp [hc, hp]

theorem applyLateCheck_status_present_or_late (log : AttendanceLog)
    (hp : log.status = .PRESENT) (st : Option ℤ) (now : ℤ) :
    (applyLateCheck log st now).status = .PRESENT ∨
      (applyLateCheck log st now).status = .LATE := by
  unfold applyLateCheck
  cases st with
  | none => exact Or.inl hp
  | some s =>
    by_cases hc : 600 < now - s
    · right
      simp [hc]
    · left
      simp [hc, hp]

/-- Claim C4: for every verified clock-in against a session with a start
time (10-minute grace period), the saved status is LATE exactly when the
check-in time exceeds the start time by strictly more than 600 seconds;
at exactly start + 600 the status is PRESENT, one second later it is
LATE. -/
theorem clock_in_late_iff (existing : Option AttendanceLog) (start now : ℤ)
    (conf : ℝ) (log : AttendanceLog) (created : Bool)
    (h : clock_in existing (some start) now conf = .ok log created) :
    (log.status = .LATE ↔ start + 600 < now) ∧
    (now = start + 600 → log.status = .PRESENT) ∧
    (now = start + 601 → log.status = .LATE) := by
  have key : log.status = if 600 < now - start then AStatus.LATE else AStatus.PRESENT := by
    cases existing with
    | none =>
      simp only [clock_in] at h
      cases h
      exact applyLateCheck_status_of_present _ rfl start now
    | some l =>
      cases hci : l.check_in_time with
      | some t =>
        simp only [clock_in, hci] at h
        cases h
      | none =>
        simp only [clock_in, hci] at h
        cases h
        exact applyLateCheck_status_of_present _ rfl start now
  refine ⟨?_, ?_, ?_⟩
  · constructor
    · intro hl
      rw [key] at hl
      by_cases hc : 600 < now - start
      · omega
      · rw [if_neg hc] at hl
        cases hl
    · intro hlt
      rw [key, if_pos (by omega)]
  · intro hb
    rw [key, if_neg (by omega)]
  · intro hb
    rw [key, if_pos (by omega)]

/-- Witness for C4: a clock-in exactly at start + grace (start 0,
check-in 600) is PRESENT. -/
theorem clock_in_late_iff_witness :
    ({ status := .PRESENT, check_in_time := some 600, check_out_time := none,
       face_recognition_confidence := some 1, is_manual_override := false,
       override_reason := "", override_by := none } : AttendanceLog).status
      = AStatus.PRESENT :=
  (clock_in_late_iff none 0 600 1 _ true rfl).2.1 rfl

/-- Claim C5: a clock-in for a key whose row already has a check-in time
is rejected as already clocked in with the row untouched; the first
verified clock-in creates the row (or upgrades a row lacking a check-in
time) with check-in time, status and confidence set. -/
theorem clock_in_first_and_repeat (log : AttendanceLog) (st : Option ℤ)
    (now : ℤ) (conf : ℝ) :
    ((∃ t, log.check_in_time = some t) →
        clock_in (some log) st now conf = .alreadyClockedIn log) ∧
    (log.check_in_time = none →
        ∃ out, clock_in (some log) st now conf = .ok out false ∧
          out.check_in_time = some now ∧
          out.face_recognition_confidence = some conf ∧
          (out.status = .PRESENT ∨ out.status = .LATE)) ∧
    (∃ out, clock_in none st now conf = .ok out true ∧
        out.check_in_time = some now ∧
        out.face_recognition_confidence = some conf ∧
        (out.status = .PRESENT ∨ out.status = .LATE)) := by
  refine ⟨?_, ?_, ?_⟩
  · rintro ⟨t, ht⟩
    simp only [clock_in, ht]
  · intro hnone
    refine ⟨applyLateCheck
      { log with check_in_time := some now,
                 face_recognition_confidence := some conf,
                 status := .PRESENT } st now, ?_, ?_, ?_, ?_⟩
    · simp only [clock_in, hnone]
    · rw [applyLateCheck_check_in]
    · rw [applyLateCheck_conf]
    · exact applyLateCheck_status_present_or_late _ rfl st now
  · refine ⟨applyLateCheck
      { status := .PRESENT, check_in_time := some now, check_out_time := none,
        face_recognition_confidence := some conf, is_manual_override := false,
        override_reason := "", override_by := none } st now, ?_, ?_, ?_, ?_⟩
    · simp only [clock_in]
    · rw [applyLateCheck_check_in]
    · rw [applyLateCheck_conf]
    · exact applyLateCheck_status_present_or_late _ rfl st now

/-- Witness for C5: a row that already has a check-in time (100 seconds)
is rejected unchanged. -/
theorem clock_in_first_and_repeat_witness :
    clock_in (some ⟨.PRESENT, some 100, none, some 1, false, "", none⟩)
        (some 0) 700 1 =
      .alreadyClockedIn ⟨.PRESENT, some 100, none, some 1, false, "", none⟩ :=
  (clock_in_first_and_repeat _ (some 0) 700 1).1 ⟨100, rfl⟩

/-- Claim C6: a clock-out with no row for the key, or a row without a
check-in time, or a row with an existing check-out time, fails with its
own distinct outcome and touches nothing; otherwise only the check-out
time is set. -/
theorem clock_out_spec (now : ℤ) (log : AttendanceLog) :
    (clock_out none now = .noAttendanceRecord) ∧
    (log.check_in_time = none → clock_out (some log) now = .noCheckIn log) ∧
    (∀ tin tout, log.check_in_time = some tin → log.check_out_time = some tout →
        clock_out (some log) now = .alreadyClockedOut log) ∧
    (∀ tin, log.check_in_time = some tin → log.check_out_time = none →
        clock_out (some log) now = .ok { log with check_out_time := some now } ∧
        ({ log with check_out_time := some now } : AttendanceLog).status = log.status ∧
        ({ log with check_out_time := some now } : AttendanceLog).check_in_time
          = log.check_in_time ∧
        ({ log with check_out_time := some now } : AttendanceLog).face_recognition_confidence
          = log.face_recognition_confidence) := by
  refine ⟨rfl, ?_, ?_, ?_⟩
  · intro h
    simp only [clock_out, h]
  · intro tin tout hin hout
    simp only [clock_out, hin, hout]
  · intro tin hin hout
    exact ⟨by simp only [clock_out, hin, hout], rfl, rfl, rfl⟩

/-- Witness for C6: clocking out with no prior check-in is rejected. -/
theorem clock_out_spec_witness :
    clock_out (some ⟨.ABSENT, none, none, none, false, "", none⟩) 500 =
      .noCheckIn ⟨.ABSENT, none, none, none, false, "", none⟩ :=
  (clock_out_spec 500 _).2.1 rfl

/-- Counterexample to claim C7 as stated: approving a pending manual
request whose attendance row already has a check-in time leaves the row
exactly as it was - in particular it is NOT marked as a manual override
(no flag, reason or actor is recorded), contradicting "approving a
pending request ... creates or corrects the attendance record as a
manual override (with flag, reason, and actor)". -/
theorem manual_approve_leaves_checked_in_row :
    manual_request_action ⟨.pending, "forgot badge", none, ""⟩ .approve 7 "ok"
        (some ⟨.PRESENT, some 540, none, some 1, false, "", none⟩) 540 =
      .decided ⟨.approved, "forgot badge", some 7, "ok"⟩
        (some ⟨.PRESENT, some 540, none, some 1, false, "", none⟩) ∧
    (⟨.PRESENT, some 540, none, some 1, false, "", none⟩ :
        AttendanceLog).is_manual_override = false :=
  ⟨rfl, rfl⟩

/-- The decided form of a manual request: status set by the action,
reviewer and response recorded (the writes of lines 145-149 of
attendance/manual_request_views.py). -/
def decidedRequest (req : ManualRequest) (st : MRStatus) (reviewer : ℕ)
    (reason : String) : ManualRequest :=
  { req with status := st, reviewed_by := some reviewer,
             admin_response := reason }

/-- Claim C7 (amended): at most one decision is ever applied to a manual
request - a decision on a non-pending request is rejected and changes
neither the request nor the attendance row; approving a pending request
marks it approved and creates the attendance row as a manual override
(flag, reason, actor) when none exists, corrects an existing row lacking
a check-in time with the same override fields, and leaves a row that
already has a check-in time unchanged; rejecting a pending request marks
it rejected and leaves the attendance row untouched. -/
theorem manual_request_action_spec (req : ManualRequest) (act : MRAction)
    (reviewer : ℕ) (reason : String) (existing : Option AttendanceLog)
    (sstart : ℤ) :
    (req.status ≠ .pending →
        manual_request_action req act reviewer reason existing sstart =
          .alreadyProcessed req existing) ∧
    (req.status = .pending →
        manual_request_action req .reject reviewer reason existing sstart =
          .decided (decidedRequest req .rejected reviewer reason) existing) ∧
    (req.status = .pending → existing = none →
        ∃ nlog, manual_request_action req .approve reviewer reason none sstart =
          .decided (decidedRequest req .approved reviewer reason) (some nlog) ∧
          nlog.is_manual_override = true ∧
          nlog.override_by = some reviewer ∧
          nlog.override_reason = "Manual request approved: " ++ req.reason ∧
          nlog.check_in_time = some sstart ∧ nlog.status = .PRESENT) ∧
    (req.status = .pending → ∀ log, existing = some log →
        log.check_in_time = none →
        ∃ nlog, manual_request_action req .approve reviewer reason
            (some log) sstart =
          .decided (decidedRequest req .approved reviewer reason) (some nlog) ∧
          nlog.is_manual_override = true ∧
          nlog.override_by = some reviewer ∧
          nlog.override_reason = "Manual request approved: " ++ req.reason ∧
          nlog.check_in_time = some sstart ∧ nlog.status = .PRESENT ∧
          nlog.check_out_time = log.check_out_time) ∧
    (req.status = .pending → ∀ log t, log.check_in_time = some t →
        manual_request_action req .approve reviewer reason (some log) sstart =
          .decided (decidedRequest req .approved reviewer reason) (some log)) := by
  refine ⟨?_, ?_, ?_, ?_, ?_⟩
  · intro hnp
    simp only [manual_request_action, if_pos hnp]
  · intro hp
    simp only [manual_request_action, hp, decidedRequest]
    rfl
  · intro hp _
    refine ⟨⟨.PRESENT, some sstart, none, none, true,
        "Manual request approved: " ++ req.reason, some reviewer⟩,
        ?_, rfl, rfl, rfl, rfl, rfl⟩
    simp only [manual_request_action, hp, decidedRequest]
    rfl
  · intro hp log _ hci
    refine ⟨{ log with
              status := .PRESENT,
              check_in_time := some sstart,
              is_manual_override := true,
              override_reason := "Manual request approved: " ++ req.reason,
              override_by := some reviewer }, ?_, rfl, rfl, rfl, rfl, rfl, rfl⟩
    simp only [manual_request_action, hp, hci, decidedRequest]
    rfl
  · intro hp log t hci
    simp only [manual_request_action, hp, hci, decidedRequest]
    rfl

/-- Witness for the amended C7: deciding an already-approved request is
rejected and changes nothing. -/
theorem manual_request_action_spec_witness :
    manual_request_action ⟨.approved, "left early", some 3, "fine"⟩ .approve
        9 "again" none 480 =
      .alreadyProcessed ⟨.approved, "left early", some 3, "fine"⟩ none :=
  (manual_request_action_spec ⟨.approved, "left early", some 3, "fine"⟩
    .approve 9 "again" none 480).1 (by simp)

/-- Claim C10: `calculate_cosine_similarity` is total - whenever either
vector has zero norm it returns exactly 0.0 instead of dividing by zero,
so a degenerate embedding can never meet any positive threshold. -/
theorem cosine_similarity_zero_norm_guard (e1 e2 : List ℝ) (t : ℝ)
    (ht : 0 < t) (h : l2norm e1 = 0 ∨ l2norm e2 = 0) :
    calculate_cosine_similarity e1 e2 = 0 ∧
    ¬ t ≤ calculate_cosine_similarity e1 e2 := by
  have hz : calculate_cosine_similarity e1 e2 = 0 := by
    unfold calculate_cosine_similarity
    rw [if_pos h]
  refine ⟨hz, ?_⟩
  rw [hz]
  exact not_le.mpr ht

/-- Witness for C10: the zero vector against a unit vector at the
verification threshold 0.6. -/
theorem cosine_similarity_zero_norm_guard_witness :
    calculate_cosine_similarity [0] [1] = 0 ∧
    ¬ (0.6 : ℝ) ≤ calculate_cosine_similarity [0] [1] :=
  cosine_similarity_zero_norm_guard [0] [1] 0.6 (by norm_num)
    (Or.inl (by simp [l2norm, sumSq]))

/-- Claim C9: the overall quality equals
`0.3*rate + 0.4*confidence + 0.3*consistency`, where the consistency is
`1 - min(1, mean per-dimension standard deviation)` with two or more
embeddings and exactly 1.0 with a single embedding. -/
theorem quality_metrics_formula (r : EnrollResults) :
    (calculate_quality_metrics r).overall_quality =
        0.3 * (calculate_quality_metrics r).face_detection_rate
      + 0.4 * (calculate_quality_metrics r).average_confidence
      + 0.3 * (calculate_quality_metrics r).embedding_consistency ∧
    (2 ≤ r.embeddings.length →
        (calculate_quality_metrics r).embedding_consistency =
          1 - min 1 (meanStd r.embeddings (r.embeddings.headD []).length)) ∧
    (r.embeddings.length = 1 →
        (calculate_quality_metrics r).embedding_consistency = 1) := by
  refine ⟨?_, ?_, ?_⟩
  · simp only [calculate_quality_metrics]
    ring
  · intro h2
    have h1 : 1 < r.embeddings.length := h2
    simp only [calculate_quality_metrics, if_pos h1]
    rw [min_comm]
  · intro h1
    have hn : ¬ 1 < r.embeddings.length := by omega
    simp only [calculate_quality_metrics, if_neg hn]

/-- Witness for C9: a single-embedding enrollment has consistency
exactly 1. -/
theorem quality_metrics_formula_witness :
    (calculate_quality_metrics ⟨1, 1, [[1]], [1]⟩).embedding_consistency = 1 :=
  (quality_metrics_formula ⟨1, 1, [[1]], [1]⟩).2.2 rfl

/-- Claim C8: `calculate_average_embedding` errors on the empty list,
returns a vector of Euclidean norm 1 whenever the componentwise mean is
not the zero vector, and returns the zero vector when the mean is the
zero vector. -/
theorem calculate_average_embedding_spec (v : List ℝ) (vs : List (List ℝ)) :
    (calculate_average_embedding [] = .error "No embeddings provided") ∧
    (meanVec (v :: vs) ≠ List.replicate (meanVec (v :: vs)).length 0 →
        ∃ u, calculate_average_embedding (v :: vs) = .ok u ∧ l2norm u = 1) ∧
    (meanVec (v :: vs) = List.replicate (meanVec (v :: vs)).length 0 →
        calculate_average_embedding (v :: vs) =
          .ok (List.replicate (meanVec (v :: vs)).length 0)) := by
  refine ⟨rfl, ?_, ?_⟩
  · intro hne
    have hsz : sumSq (meanVec (v :: vs)) ≠ 0 := fun h =>
      hne ((sumSq_eq_zero_iff _).mp h)
    have hpos : 0 < l2norm (meanVec (v :: vs)) := by
      rw [l2norm_pos_iff]
      exact lt_of_le_of_ne (sumSq_nonneg _) (Ne.symm hsz)
    refine ⟨(meanVec (v :: vs)).map fun x => x / l2norm (meanVec (v :: vs)),
      ?_, l2norm_map_div_self _ hpos⟩
    simp only [calculate_average_embedding, if_pos hpos]
  · intro hzero
    have hs0 : sumSq (meanVec (v :: vs)) = 0 := by
      rw [hzero]
      exact (sumSq_eq_zero_iff _).mpr (by rw [List.length_replicate])
    have hnpos : ¬ 0 < l2norm (meanVec (v :: vs)) := by
      rw [(l2norm_eq_zero_iff _).mpr hs0]
      exact lt_irrefl 0
    simp only [calculate_average_embedding, if_neg hnpos]
    rw [hzero, List.length_replicate]

/-- Witness for C8: averaging the single embedding [1, 0] yields a
unit-norm vector. -/
theorem calculate_average_embedding_spec_witness :
    ∃ u, calculate_average_embedding [[1, 0]] = .ok u ∧ l2norm u = 1 :=
  (calculate_average_embedding_spec [1, 0] []).2.1 (by
    simp [meanVec, vecSum])

/-! ### Concrete evaluations shared by several witnesses -/

theorem l2norm_single_one : l2norm [(1 : ℝ)] = 1 := by
  simp [l2norm, sumSq]

theorem cos_sim_one_one : calculate_cosine_similarity [(1 : ℝ)] [1] = 1 := by
  unfold calculate_cosine_similarity
  rw [l2norm_single_one]
  rw [if_neg (by norm_num)]
  simp [dot]

/-- Claim C3: `verify_face` reports a missing active enrollment, zero
detected faces and several detected faces as three distinct outcomes
(never collapsed); with exactly one face and an extracted embedding it
is verified exactly when the cosine similarity to the stored embedding
reaches the threshold (default 0.6), and the similarity is returned as
the confidence on both sides of the threshold. -/
theorem verify_face_spec (env : VerifyEnv) :
    default_similarity_threshold = 0.6 ∧
    (env.enrollment = none →
        verify_face default_similarity_threshold env =
          ⟨false, 0, .noActiveEnrollment, none⟩) ∧
    (∀ stored, env.enrollment = some stored → env.decode = .ok () →
        (env.faces = .ok [] →
            verify_face default_similarity_threshold env =
              ⟨false, 0, .noFaceDetected, none⟩) ∧
        (∀ fs, env.faces = .ok fs → 1 < fs.length →
            verify_face default_similarity_threshold env =
              ⟨false, 0, .multipleFacesDetected, none⟩) ∧
        (∀ f snap, env.faces = .ok [f] → env.crop = .ok (some ()) →
            env.extract = .ok (some snap) →
            ((verify_face default_similarity_threshold env).verified = true ↔
                default_similarity_threshold ≤
                  calculate_cosine_similarity snap stored) ∧
            (verify_face default_similarity_threshold env).confidence =
              calculate_cosine_similarity snap stored)) ∧
    (VMessage.noActiveEnrollment ≠ VMessage.noFaceDetected ∧
     VMessage.noActiveEnrollment ≠ VMessage.multipleFacesDetected ∧
     VMessage.noFaceDetected ≠ VMessage.multipleFacesDetected) := by
  refine ⟨rfl, ?_, ?_, by simp, by simp, by simp⟩
  · intro hnone
    simp only [verify_face, hnone]
  · intro stored henr hdec
    refine ⟨?_, ?_, ?_⟩
    · intro hf
      simp only [verify_face, henr, hdec, hf, List.isEmpty_nil, if_pos]
    · intro fs hf hlen
      have hne : fs.isEmpty = false := by
        cases fs with
        | nil => simp at hlen
        | cons a l => rfl
      simp only [verify_face, henr, hdec, hf, hne, Bool.false_eq_true,
        if_neg, if_pos hlen]
      simp
    · intro f snap hf hcrop hext
      have hone : ¬ (1 < ([f] : List FaceDet).length) := by simp
      by_cases hle : default_similarity_threshold ≤
          calculate_cosine_similarity snap stored
      · simp only [verify_face, henr, hdec, hf, hcrop, hext, List.isEmpty_cons,
          Bool.false_eq_true, if_neg, if_neg hone, if_pos hle]
        simp [hle]
      · simp only [verify_face, henr, hdec, hf, hcrop, hext, List.isEmpty_cons,
          Bool.false_eq_true, if_neg, if_neg hone, if_neg hle]
        simp [hle]

/-- Witness for C3: a matching snapshot (embedding [1] against stored
[1], similarity 1 at threshold 0.6) verifies. -/
theorem verify_face_spec_witness :
    (verify_face default_similarity_threshold
        ⟨some [1], .ok (), .ok [⟨(0, 0, 0, 0), 0.95⟩], .ok (some ()),
          .ok (some [1])⟩).verified = true :=
  (((verify_face_spec
      ⟨some [1], .ok (), .ok [⟨(0, 0, 0, 0), 0.95⟩], .ok (some ()),
        .ok (some [1])⟩).2.2.1 [1] rfl rfl).2.2 ⟨(0, 0, 0, 0), 0.95⟩ [1]
      rfl rfl rfl).1.mpr
    (by rw [cos_sim_one_one]; norm_num [default_similarity_threshold])

/-- Counterexample to claim C2 as stated: a concrete provider timeout
raised during face detection is caught and reported with
`verified = False` and `confidence = 0.0` - the same negative decision
outcome as a failed identity match, merely with a different message -
and the clock-in endpoint turns it into the same 401 rejection it uses
for a failed match. There is no "verification unavailable"
(inconclusive) outcome. -/
theorem provider_error_reported_as_not_verified :
    (verify_face default_similarity_threshold
        ⟨some [1], .ok (), .raises "Read timed out", .ok none, .ok none⟩).verified
      = false ∧
    (verify_face default_similarity_threshold
        ⟨some [1], .ok (), .raises "Read timed out", .ok none, .ok none⟩).message
      = .verificationError "Read timed out" ∧
    clock_in_view (verify_face default_similarity_threshold
        ⟨some [1], .ok (), .raises "Read timed out", .ok none, .ok none⟩)
        none (some 0) 60
      = .unauthorized (.verificationError "Read timed out") 0 :=
  ⟨rfl, rfl, rfl⟩

/-- Claim C2 (amended): a transport/model error raised by the matching
provider during verification is caught and reported as
`verified = False` with confidence 0.0 - in `FaceVerificationService`
with a `Verification error:` message, in `AWSRekognitionService` with an
`error` field - and the clock-in caller rejects it exactly like a
negative identity match; it is NOT surfaced as a distinct "verification
unavailable" (inconclusive) outcome. -/
theorem provider_error_spec (env : VerifyEnv) (stored : List ℝ) (m : String)
    (henr : env.enrollment = some stored) (hdec : env.decode = .ok ())
    (hf : env.faces = .raises m) :
    verify_face default_similarity_threshold env =
      ⟨false, 0, .verificationError m, none⟩ ∧
    (∀ existing st now,
        clock_in_view (verify_face default_similarity_threshold env)
            existing st now =
          .unauthorized (.verificationError m) 0) ∧
    (∀ (p : String → Bool) (t : ℝ),
        aws_verify_face (.raises m) p t = ⟨false, 0, false, some m⟩) := by
  have hv : verify_face default_similarity_threshold env =
      ⟨false, 0, .verificationError m, none⟩ := by
    simp only [verify_face, henr, hdec, hf]
  refine ⟨hv, ?_, ?_⟩
  · intro existing st now
    rw [hv]
    rfl
  · intro p t
    rfl

/-- Witness for the amended C2 at a concrete timeout. -/
theorem provider_error_spec_witness :
    aws_verify_face (.raises "Connect timeout on endpoint URL")
        (fun _ => true) 80 =
      ⟨false, 0, false, some "Connect timeout on endpoint URL"⟩ :=
  (provider_error_spec
      ⟨some [1], .ok (), .raises "Connect timeout on endpoint URL",
        .ok none, .ok none⟩
      [1] "Connect timeout on endpoint URL" rfl rfl rfl).2.2
    (fun _ => true) 80

/-! ### Claim C1 - the enrollment duplicate scan -/

theorem calc_avg_single_one : calculate_average_embedding [[(1 : ℝ)]] = .ok [1] := by
  have hm : meanVec [[(1 : ℝ)]] = [1] := by
    simp [meanVec, vecSum]
  simp only [calculate_average_embedding, hm, l2norm_single_one]
  rw [if_pos one_pos]
  norm_num

/-- Claim C1 (code bug): in `StudentEnrollmentView.post` the duplicate
scan calls `processor.calculate_cosine_similarity`, an attribute the
`FaceProcessor` class does not define; the resulting `AttributeError` is
swallowed by the per-enrollment `except Exception: continue`, so the
scan reports no conflict for ANY other active enrollment - even one
whose stored embedding has cosine similarity 1 to the candidate - and
the enrollment is persisted instead of returning the 409 conflict. -/
theorem enrollment_duplicate_scan_never_fires (r : EnrollResults)
    (others : List (ℕ × List ℝ)) (avg : List ℝ)
    (h5 : ¬ r.faces_detected < 5)
    (havg : calculate_average_embedding r.embeddings = .ok avg)
    (sid : ℕ) (emb : List ℝ) (hmem : (sid, emb) ∈ others)
    (hsim : duplicate_threshold ≤ calculate_cosine_similarity avg emb) :
    student_enrollment_post r others = .ok (.persisted avg) := by
  have hscan : ∀ l : List (ℕ × List ℝ),
      duplicate_scan faceProcessorCosineAttr duplicate_threshold avg l = none := by
    intro l
    induction l with
    | nil => rfl
    | cons p rest ih =>
      cases p with
      | mk a b =>
        simp only [duplicate_scan, faceProcessorCosineAttr]
        exact ih
  simp only [student_enrollment_post, if_neg h5, havg, hscan]

/-- Witness for C1: five faces, candidate embedding [1], and another
active enrollment whose stored embedding is also [1] (similarity 1,
far above the 0.95 duplicate threshold) - the enrollment still
persists. -/
theorem enrollment_duplicate_scan_never_fires_witness :
    student_enrollment_post ⟨5, 5, [[1]], [1]⟩ [(1, [1])] =
      .ok (.persisted [1]) :=
  enrollment_duplicate_scan_never_fires ⟨5, 5, [[1]], [1]⟩ [(1, [1])] [1]
    (by norm_num) calc_avg_single_one 1 [1] (List.mem_singleton.mpr rfl)
    (by rw [cos_sim_one_one]; norm_num [duplicate_threshold])

end BioAttend
